import Mathlib

/-!
Shallow embedding of the OpenStack deployment scripts under
`playpen/deploy/openstack`:

* `os1_utils.py` — the `OS1Manager` class: instance creation requests and the
  bounded polling loop `wait_for_active_instances`.
* `deploy-environment.py` — the deployment driver: `create_instance` (create
  request plus a wait loop on the instance status), `fabric_confirm_ssh_key`
  (bounded SSH retry), `tear_down`, `run_tests` (the orchestration flow), and
  the `argparse` argument table.
* `setup_utils.py` — its own `fabric_confirm_ssh_key` variant.

External effects (the cloud API, SSH, the filesystem) are modelled by explicit
oracle parameters; stateful control flow is modelled by functions that return
the list of externally visible events in order, together with the outcome of
the process (a `sys.exit` code or a propagating exception).
-/

namespace PulpDeploy

/-- Openstack status keyword `ACTIVE` (constant from the sources). -/
def OPENSTACK_ACTIVE_KEYWORD : String := "ACTIVE"

/-- Openstack status keyword `BUILD` (constant from the sources). -/
def OPENSTACK_BUILD_KEYWORD : String := "BUILD"

/-- A nova server as seen by `os1_utils.py`: an id (by which the script
re-fetches it) and a human-readable name. -/
structure OS1Server where
  id : Nat
  name : String
deriving DecidableEq

/-- Error message raised by `wait_for_active_instances` when the build loop
exhausts its time budget (verbatim from `os1_utils.py`). -/
def BUILD_TIMEOUT_MSG : String :=
  "Build time exceeded timeout, please inspect the instances and clean up"

/-- Error message raised by `wait_for_active_instances` when an instance left
the build state but is not active (verbatim from `os1_utils.py`). -/
def FAILED_BUILD_MSG (name : String) : String :=
  "Failed to build the following instance: " ++ name

/-- Number of iterations of Python `range(0, stop, step)` for a possibly
negative `stop` (as an `Int`) and a positive `step`. -/
def pyRangeLen (stop : Int) (step : Nat) : Nat :=
  (stop.toNat + step - 1) / step

/-- The loop body of `OS1Manager.wait_for_active_instances`.

`statusAt t i` is the status the cloud reports for server id `i` after `t`
sleeps have elapsed (each `time.sleep(10)` advances `t` by one). `fuel` is the
number of remaining iterations of `for x in range(0, timeout * 60, 10)`.

Mirrors the source: scan the list for a server still in the `BUILD` state; on
the first hit, sleep and start the next iteration; if none is found (the
`for/else` branch), re-scan and raise on the first server whose status is not
`ACTIVE`, otherwise return. If the iterations run out, raise the timeout
error. Returns the result together with the number of sleeps performed. -/
def wait_loop (statusAt : Nat → Nat → String) (instance_list : List OS1Server) :
    Nat → Nat → Except String Unit × Nat
  | _, 0 => (.error BUILD_TIMEOUT_MSG, 0)
  | t, fuel + 1 =>
    match instance_list.find? (fun s => statusAt t s.id == OPENSTACK_BUILD_KEYWORD) with
    | some _ =>
      let r := wait_loop statusAt instance_list (t + 1) fuel
      (r.1, r.2 + 1)
    | none =>
      match instance_list.find? (fun s => !(statusAt t s.id == OPENSTACK_ACTIVE_KEYWORD)) with
      | some s => (.error (FAILED_BUILD_MSG s.name), 0)
      | none => (.ok (), 0)

/-- `OS1Manager.wait_for_active_instances(instance_list, timeout)`: the loop
above run with the iteration count of `range(0, timeout * 60, 10)`.
`timeout` is in minutes and may be zero or negative. -/
def wait_for_active_instances (statusAt : Nat → Nat → String)
    (instance_list : List OS1Server) (timeout : Int) : Except String Unit × Nat :=
  wait_loop statusAt instance_list 0 (pyRangeLen (timeout * 60) 10)

/-- The sleep count of the wait loop never exceeds its iteration budget. -/
theorem wait_loop_sleeps_le (statusAt : Nat → Nat → String)
    (instance_list : List OS1Server) :
    ∀ fuel t, (wait_loop statusAt instance_list t fuel).2 ≤ fuel := by
  intro fuel
  induction fuel with
  | zero => intro t; simp [wait_loop]
  | succ n ih =>
    intro t
    rw [wait_loop]
    cases instance_list.find? (fun s => statusAt t s.id == OPENSTACK_BUILD_KEYWORD) with
    | none =>
      cases instance_list.find? (fun s => !(statusAt t s.id == OPENSTACK_ACTIVE_KEYWORD)) with
      | none => simp
      | some s => simp
    | some s =>
      simpa using Nat.succ_le_succ (ih (t + 1))

/-- If some listed server reports `BUILD` at every time, the loop always ends
with the timeout error. -/
theorem wait_loop_timeout (statusAt : Nat → Nat → String)
    (instance_list : List OS1Server) (s : OS1Server) (hs : s ∈ instance_list)
    (hb : ∀ t, statusAt t s.id = OPENSTACK_BUILD_KEYWORD) :
    ∀ fuel t, (wait_loop statusAt instance_list t fuel).1 = .error BUILD_TIMEOUT_MSG := by
  intro fuel
  induction fuel with
  | zero => intro t; simp [wait_loop]
  | succ n ih =>
    intro t
    rw [wait_loop]
    cases hfind : instance_list.find? (fun s => statusAt t s.id == OPENSTACK_BUILD_KEYWORD) with
    | none =>
      exfalso
      have := List.find?_eq_none.mp hfind s hs
      simp [hb t] at this
    | some s₀ => simpa using ih (t + 1)

/-- If, before time `t + d`, some listed server always reports `BUILD`, the
loop from time `t` reduces to the loop from time `t + d` with `d` fewer
iterations. -/
theorem wait_loop_skip (statusAt : Nat → Nat → String)
    (instance_list : List OS1Server) :
    ∀ (d fuel t : Nat), d < fuel →
      (∀ u, u < d → ∃ s ∈ instance_list, statusAt (t + u) s.id = OPENSTACK_BUILD_KEYWORD) →
      (wait_loop statusAt instance_list t fuel).1
        = (wait_loop statusAt instance_list (t + d) (fuel - d)).1 := by
  intro d
  induction d with
  | zero => intro fuel t _ _; simp
  | succ m ih =>
    intro fuel t hd hbuild
    obtain ⟨f, rfl⟩ : ∃ f, fuel = f + 1 := ⟨fuel - 1, by omega⟩
    obtain ⟨s, hs, hstat⟩ := hbuild 0 (by omega)
    rw [wait_loop]
    cases hfind : instance_list.find? (fun s => statusAt t s.id == OPENSTACK_BUILD_KEYWORD) with
    | none =>
      exfalso
      have hnone := List.find?_eq_none.mp hfind s hs
      rw [Nat.add_zero] at hstat
      simp [hstat] at hnone
    | some s₀ =>
      have hb₁ : ∀ u, u < m → ∃ s₁ ∈ instance_list,
          statusAt (t + 1 + u) s₁.id = OPENSTACK_BUILD_KEYWORD := by
        intro u hu
        obtain ⟨s₁, hs₁, h₁⟩ := hbuild (u + 1) (by omega)
        refine ⟨s₁, hs₁, ?_⟩
        have harg : t + (u + 1) = t + 1 + u := by omega
        rwa [harg] at h₁
      have hstep := ih f (t + 1) (by omega) hb₁
      have harg : t + 1 + m = t + (m + 1) := by omega
      have hfuel : f - m = f + 1 - (m + 1) := by omega
      rw [harg, hfuel] at hstep
      simpa using hstep

/-- Claim C2: the wait for instances to become active is bounded by the
configured timeout ceiling. (1) If some instance's status remains `BUILD` at
every poll, the polling loop terminates by raising the timeout error rather
than polling forever. (2) If every instance has left the `BUILD` state within
the ceiling (at poll time `t0`, every earlier poll still finding some instance
building) and some instance's status is not `ACTIVE`, an error naming a failed
instance is raised. (3) The number of sleeps never exceeds the iteration
budget derived from the timeout. -/
theorem claim_C2_wait_bounded :
    (∀ (statusAt : Nat → Nat → String) (l : List OS1Server) (timeout : Int)
      (s : OS1Server), s ∈ l → (∀ t, statusAt t s.id = OPENSTACK_BUILD_KEYWORD) →
      (wait_for_active_instances statusAt l timeout).1 = .error BUILD_TIMEOUT_MSG)
    ∧ (∀ (statusAt : Nat → Nat → String) (l : List OS1Server) (timeout : Int) (t0 : Nat),
      t0 < pyRangeLen (timeout * 60) 10 →
      (∀ u, u < t0 → ∃ s ∈ l, statusAt u s.id = OPENSTACK_BUILD_KEYWORD) →
      (∀ s ∈ l, statusAt t0 s.id ≠ OPENSTACK_BUILD_KEYWORD) →
      (∃ s ∈ l, statusAt t0 s.id ≠ OPENSTACK_ACTIVE_KEYWORD) →
      ∃ s ∈ l, (wait_for_active_instances statusAt l timeout).1 = .error (FAILED_BUILD_MSG s.name))
    ∧ (∀ (statusAt : Nat → Nat → String) (l : List OS1Server) (timeout : Int),
      (wait_for_active_instances statusAt l timeout).2 ≤ pyRangeLen (timeout * 60) 10) := by
  refine ⟨?_, ?_, ?_⟩
  · intro statusAt l timeout s hs hb
    exact wait_loop_timeout statusAt l s hs hb _ 0
  · intro statusAt l timeout t0 hceil hbefore hleft hnotactive
    unfold wait_for_active_instances
    have hskip := wait_loop_skip statusAt l t0 (pyRangeLen (timeout * 60) 10) 0 hceil
      (fun u hu => by simpa using hbefore u hu)
    rw [hskip]
    obtain ⟨g, hg⟩ : ∃ g, pyRangeLen (timeout * 60) 10 - t0 = g + 1 :=
      ⟨pyRangeLen (timeout * 60) 10 - t0 - 1, by omega⟩
    rw [Nat.zero_add, hg, wait_loop]
    have hfind1 : l.find? (fun s => statusAt t0 s.id == OPENSTACK_BUILD_KEYWORD) = none := by
      refine List.find?_eq_none.mpr ?_
      intro x hx
      simpa using hleft x hx
    rw [hfind1]
    obtain ⟨s₁, hs₁, hstat₁⟩ := hnotactive
    cases hfind2 : l.find? (fun s => !(statusAt t0 s.id == OPENSTACK_ACTIVE_KEYWORD)) with
    | none =>
      exfalso
      have hall := List.find?_eq_none.mp hfind2 s₁ hs₁
      simp at hall
      exact hstat₁ hall
    | some s₂ =>
      exact ⟨s₂, List.mem_of_find?_eq_some hfind2, rfl⟩
  · intro statusAt l timeout
    exact wait_loop_sleeps_le statusAt l _ 0

/-- Witness for claim C2: a single server stuck in `BUILD` makes the loop
raise the timeout error; a single server reporting `ERROR` from the start
makes it raise the failed-build error. -/
theorem claim_C2_wait_bounded_witness :
    (wait_for_active_instances (fun _ _ => "BUILD") [⟨7, "stuck"⟩] 1).1
        = .error BUILD_TIMEOUT_MSG
    ∧ ∃ s ∈ [(⟨7, "stuck"⟩ : OS1Server)],
        (wait_for_active_instances (fun _ _ => "ERROR") [⟨7, "stuck"⟩] 1).1
          = .error (FAILED_BUILD_MSG s.name) :=
  ⟨claim_C2_wait_bounded.1 _ _ 1 ⟨7, "stuck"⟩ (by simp) (fun _ => rfl),
   claim_C2_wait_bounded.2.1 _ _ 1 0 (by decide)
     (fun u hu => absurd hu (Nat.not_lt_zero u))
     (by decide) (by decide)⟩

/-- Claim C10: `wait_for_active_instances` with an empty instance list and a
timeout of at least one minute returns normally with zero sleeps; with a
timeout of zero or less the `range` is empty so the loop body never runs and
it raises the timeout error for any list, again without sleeping. -/
theorem claim_C10_wait_empty_list :
    (∀ (statusAt : Nat → Nat → String) (timeout : Int), 1 ≤ timeout →
      wait_for_active_instances statusAt [] timeout = (.ok (), 0))
    ∧ (∀ (statusAt : Nat → Nat → String) (l : List OS1Server) (timeout : Int),
      timeout ≤ 0 →
      wait_for_active_instances statusAt l timeout = (.error BUILD_TIMEOUT_MSG, 0)) := by
  constructor
  · intro statusAt timeout ht
    have hpos : 1 ≤ pyRangeLen (timeout * 60) 10 := by
      unfold pyRangeLen
      omega
    unfold wait_for_active_instances
    obtain ⟨f, hf⟩ : ∃ f, pyRangeLen (timeout * 60) 10 = f + 1 :=
      ⟨pyRangeLen (timeout * 60) 10 - 1, by omega⟩
    rw [hf]
    rfl
  · intro statusAt l timeout ht
    have hz : pyRangeLen (timeout * 60) 10 = 0 := by
      unfold pyRangeLen
      have h60 : timeout * 60 ≤ 0 := by omega
      omega
    unfold wait_for_active_instances
    rw [hz]
    rfl

/-- Witness for claim C10 at concrete inputs. -/
theorem claim_C10_wait_empty_list_witness :
    wait_for_active_instances (fun _ _ => "ACTIVE") [] 1 = (.ok (), 0)
    ∧ wait_for_active_instances (fun _ _ => "ACTIVE") [⟨1, "a"⟩] 0
        = (.error BUILD_TIMEOUT_MSG, 0) :=
  ⟨claim_C10_wait_empty_list.1 _ 1 (by decide),
   claim_C10_wait_empty_list.2 _ _ 0 (by decide)⟩

/-- One pass of the retry loop shared by the `fabric_confirm_ssh_key`
variants. `attemptOk j` tells whether the `j`-th `run('whoami')` succeeds
(fabric raises `SystemExit` on failure, which the loop catches). Returns
whether an attempt succeeded before the loop ran out, the number of attempts
made, and the number of `time.sleep(10)` calls performed (one after each
failed attempt). -/
def ssh_try_loop (attemptOk : Nat → Bool) : Nat → Nat → Bool × Nat × Nat
  | _, 0 => (false, 0, 0)
  | j, fuel + 1 =>
    if attemptOk j then (true, 1, 0)
    else
      let r := ssh_try_loop attemptOk (j + 1) fuel
      (r.1, r.2.1 + 1, r.2.2 + 1)

/-- Result of a `fabric_confirm_ssh_key` call: the error it raises (if any),
the number of `run('whoami')` attempts, and the number of sleeps. -/
structure SshOutcome where
  raised : Option String
  attempts : Nat
  sleeps : Nat
deriving DecidableEq

namespace DeployEnvironment

/-- `fabric_confirm_ssh_key` from `deploy-environment.py` (lines 261–284):
`for x in xrange(0, 30)` try `run('whoami')` and break on success, sleeping
10 seconds after each failure; the `for/else` branch raises `RuntimeError`
when the loop completes without a success. -/
def fabric_confirm_ssh_key (attemptOk : Nat → Bool)
    (host_string key_file : String) : SshOutcome :=
  let r := ssh_try_loop attemptOk 0 30
  if r.1 then ⟨none, r.2.1, r.2.2⟩
  else ⟨some ("Unable to SSH into " ++ host_string ++ " using " ++ key_file), r.2.1, r.2.2⟩

end DeployEnvironment

namespace SetupUtils

/-- `fabric_confirm_ssh_key` from `setup_utils.py` (lines 142–166): the same
30-attempt loop, but its `for/else` branch performs one more unguarded
`run('whoami')` instead of raising `RuntimeError`; if that 31st attempt fails,
fabric's `SystemExit` propagates out of the function. -/
def fabric_confirm_ssh_key (attemptOk : Nat → Bool)
    (host_string key_file : String) : SshOutcome :=
  let r := ssh_try_loop attemptOk 0 30
  if r.1 then ⟨none, r.2.1, r.2.2⟩
  else if attemptOk 30 then ⟨none, r.2.1 + 1, r.2.2⟩
  else ⟨some "SystemExit", r.2.1 + 1, r.2.2⟩

end SetupUtils

/-- If every attempt in the window fails, the retry loop reports failure after
exactly `fuel` attempts and `fuel` sleeps. -/
theorem ssh_try_loop_all_fail (attemptOk : Nat → Bool) :
    ∀ fuel j, (∀ i, i < fuel → attemptOk (j + i) = false) →
      ssh_try_loop attemptOk j fuel = (false, fuel, fuel) := by
  intro fuel
  induction fuel with
  | zero => intro j _; rfl
  | succ n ih =>
    intro j hfail
    have h0 : attemptOk j = false := by simpa using hfail 0 (by omega)
    have hrest : ∀ i, i < n → attemptOk (j + 1 + i) = false := by
      intro i hi
      have := hfail (i + 1) (by omega)
      have harg : j + (i + 1) = j + 1 + i := by omega
      rwa [harg] at this
    rw [ssh_try_loop, h0]
    simp [ih (j + 1) hrest]

/-- If the first success is the `d`-th attempt of the window, the retry loop
succeeds after `d + 1` attempts and `d` sleeps. -/
theorem ssh_try_loop_first_success (attemptOk : Nat → Bool) :
    ∀ d fuel j, d < fuel → attemptOk (j + d) = true →
      (∀ i, i < d → attemptOk (j + i) = false) →
      ssh_try_loop attemptOk j fuel = (true, d + 1, d) := by
  intro d
  induction d with
  | zero =>
    intro fuel j hd hok _
    obtain ⟨f, rfl⟩ : ∃ f, fuel = f + 1 := ⟨fuel - 1, by omega⟩
    rw [Nat.add_zero] at hok
    rw [ssh_try_loop, hok]
    rfl
  | succ m ih =>
    intro fuel j hd hok hfail
    obtain ⟨f, rfl⟩ : ∃ f, fuel = f + 1 := ⟨fuel - 1, by omega⟩
    have h0 : attemptOk j = false := by simpa using hfail 0 (by omega)
    have hok₁ : attemptOk (j + 1 + m) = true := by
      have harg : j + (m + 1) = j + 1 + m := by omega
      rwa [harg] at hok
    have hfail₁ : ∀ i, i < m → attemptOk (j + 1 + i) = false := by
      intro i hi
      have := hfail (i + 1) (by omega)
      have harg : j + (i + 1) = j + 1 + i := by omega
      rwa [harg] at this
    rw [ssh_try_loop, h0]
    simp [ih f (j + 1) (by omega) hok₁ hfail₁]

/-- The retry loop never makes more attempts than its budget. -/
theorem ssh_try_loop_attempts_le (attemptOk : Nat → Bool) :
    ∀ fuel j, (ssh_try_loop attemptOk j fuel).2.1 ≤ fuel := by
  intro fuel
  induction fuel with
  | zero => intro j; simp [ssh_try_loop]
  | succ n ih =>
    intro j
    rw [ssh_try_loop]
    by_cases h : attemptOk j
    · simp [h]
    · simp only [h]
      simpa using Nat.succ_le_succ (ih (j + 1))

/-- Claim C8 counterexample: when every attempt fails, the `setup_utils.py`
variant of `fabric_confirm_ssh_key` makes 31 connection attempts, not at most
30 — its `for/else` branch runs one extra unguarded `run('whoami')` whose
failure is the error that propagates. -/
theorem claim_C8_counterexample :
    SetupUtils.fabric_confirm_ssh_key (fun _ => false) "cloud-user@10.8.30.1" "/home/u/key.pem"
      = ⟨some "SystemExit", 31, 30⟩
    ∧ ¬(SetupUtils.fabric_confirm_ssh_key (fun _ => false) "cloud-user@10.8.30.1"
          "/home/u/key.pem").attempts ≤ 30 := by
  constructor
  · rw [SetupUtils.fabric_confirm_ssh_key,
      ssh_try_loop_all_fail (fun _ => false) 30 0 (fun _ _ => rfl)]
    rfl
  · rw [SetupUtils.fabric_confirm_ssh_key,
      ssh_try_loop_all_fail (fun _ => false) 30 0 (fun _ _ => rfl)]
    decide

/-- Claim C8 (amended): both `fabric_confirm_ssh_key` variants are bounded
retry loops that return as soon as one attempt succeeds, sleeping 10 seconds
after each failed loop attempt. The `deploy-environment.py` variant makes at
most 30 attempts and raises `RuntimeError` when all 30 fail; the
`setup_utils.py` variant makes one additional unguarded 31st attempt after 30
failures, and the error that propagates on total failure is that attempt's
`SystemExit`. Neither retries forever. -/
theorem claim_C8_ssh_retry_bounded :
    (∀ (attemptOk : Nat → Bool) (host_string key_file : String),
      (DeployEnvironment.fabric_confirm_ssh_key attemptOk host_string key_file).attempts ≤ 30
      ∧ (SetupUtils.fabric_confirm_ssh_key attemptOk host_string key_file).attempts ≤ 31)
    ∧ (∀ (attemptOk : Nat → Bool) (host_string key_file : String) (j : Nat), j < 30 →
      attemptOk j = true → (∀ i, i < j → attemptOk i = false) →
      DeployEnvironment.fabric_confirm_ssh_key attemptOk host_string key_file = ⟨none, j + 1, j⟩
      ∧ SetupUtils.fabric_confirm_ssh_key attemptOk host_string key_file = ⟨none, j + 1, j⟩)
    ∧ (∀ (attemptOk : Nat → Bool) (host_string key_file : String),
      (∀ i, i < 30 → attemptOk i = false) →
      DeployEnvironment.fabric_confirm_ssh_key attemptOk host_string key_file
        = ⟨some ("Unable to SSH into " ++ host_string ++ " using " ++ key_file), 30, 30⟩)
    ∧ (∀ (attemptOk : Nat → Bool) (host_string key_file : String),
      (∀ i, i < 31 → attemptOk i = false) →
      SetupUtils.fabric_confirm_ssh_key attemptOk host_string key_file
        = ⟨some "SystemExit", 31, 30⟩) := by
  refine ⟨?_, ?_, ?_, ?_⟩
  · intro attemptOk host_string key_file
    constructor
    · rw [DeployEnvironment.fabric_confirm_ssh_key]
      have hle := ssh_try_loop_attempts_le attemptOk 30 0
      by_cases hb : (ssh_try_loop attemptOk 0 30).1 <;> simp [hb, hle]
    · rw [SetupUtils.fabric_confirm_ssh_key]
      have hle := ssh_try_loop_attempts_le attemptOk 30 0
      by_cases hb : (ssh_try_loop attemptOk 0 30).1
      · simp [hb]; omega
      · by_cases h30 : attemptOk 30 <;> simp [hb, h30] <;> omega
  · intro attemptOk host_string key_file j hj hok hfail
    have hloop : ssh_try_loop attemptOk 0 30 = (true, j + 1, j) :=
      ssh_try_loop_first_success attemptOk j 30 0 hj (by simpa using hok)
        (fun i hi => by simpa using hfail i hi)
    constructor
    · rw [DeployEnvironment.fabric_confirm_ssh_key, hloop]
      rfl
    · rw [SetupUtils.fabric_confirm_ssh_key, hloop]
      rfl
  · intro attemptOk host_string key_file hfail
    have hloop : ssh_try_loop attemptOk 0 30 = (false, 30, 30) :=
      ssh_try_loop_all_fail attemptOk 30 0 (fun i hi => by simpa using hfail i hi)
    rw [DeployEnvironment.fabric_confirm_ssh_key, hloop]
    rfl
  · intro attemptOk host_string key_file hfail
    have hloop : ssh_try_loop attemptOk 0 30 = (false, 30, 30) :=
      ssh_try_loop_all_fail attemptOk 30 0 (fun i hi => by simpa using hfail i (by omega))
    rw [SetupUtils.fabric_confirm_ssh_key, hloop, hfail 30 (by omega)]
    rfl

/-- Witness for claim C8: an oracle whose first success is the third attempt,
and an oracle that always fails. -/
theorem claim_C8_ssh_retry_bounded_witness :
    (DeployEnvironment.fabric_confirm_ssh_key (fun j => 2 ≤ j) "u@h" "k" = ⟨none, 3, 2⟩
      ∧ SetupUtils.fabric_confirm_ssh_key (fun j => 2 ≤ j) "u@h" "k" = ⟨none, 3, 2⟩)
    ∧ DeployEnvironment.fabric_confirm_ssh_key (fun _ => false) "u@h" "k"
        = ⟨some ("Unable to SSH into " ++ "u@h" ++ " using " ++ "k"), 30, 30⟩ :=
  ⟨claim_C8_ssh_retry_bounded.2.1 _ "u@h" "k" 2 (by decide) (by decide)
      (fun i hi => by simp only [decide_eq_false_iff_not]; omega),
   claim_C8_ssh_retry_bounded.2.2.1 _ "u@h" "k" (fun i _ => rfl)⟩

/-- The `security_groups` argument of the create-instance helpers: either a
single security-group name (a Python `str`, the non-list case) or a Python
list of names. -/
inductive SecurityGroups
  | name (s : String)
  | names (l : List String)
deriving DecidableEq

/-- The wrap both create-instance helpers perform:
`if not isinstance(security_groups, list): security_groups = [security_groups]`.
A non-list value is replaced by the one-element list holding it. -/
def SecurityGroups.toList : SecurityGroups → List String
  | .name s => [s]
  | .names l => l

/-- Python truthiness of an optional string (`None` and `''` are falsy). -/
def pyTruthy : Option String → Bool
  | none => false
  | some s => !(s == "")

/-- The create request handed to `nova.servers.create`: positional name,
image and flavor, plus the keyword arguments the scripts pass. The flavor is
an opaque handle obtained from `nova.flavors.find(name=flavor_name)`. -/
structure CreateRequest where
  name : String
  image : String
  flavor : Nat
  security_groups : List String
  key_name : String
  userdata : Option String
  meta : Option (List (String × String))
deriving DecidableEq

namespace OS1Manager

/-- The request issued by `OS1Manager.create_instance` in `os1_utils.py`
(lines 74–119). `flavorFind` models `self.nova.flavors.find(name=...)`; the
`cloud_init` path is opened and passed as `userdata` when truthy. Unlike the
docstring's claim, this method does not wait: it returns the freshly created
server immediately (waiting is `wait_for_active_instances`). -/
def create_instance (flavorFind : String → Nat) (image_id instance_name : String)
    (security_groups : SecurityGroups) (flavor_name key_name : String)
    (metadata : Option (List (String × String))) (cloud_init : Option String) :
    CreateRequest :=
  let flavor := flavorFind flavor_name
  let sgs := security_groups.toList
  let init_file := if pyTruthy cloud_init then cloud_init else none
  { name := instance_name, image := image_id, flavor := flavor,
    security_groups := sgs, key_name := key_name, userdata := init_file,
    meta := metadata }

end OS1Manager

/-- The request issued by `create_instance` in `deploy-environment.py`
(lines 146–155): the same construction, without instance metadata. -/
def create_instance_request (flavorFind : String → Nat) (image_id instance_name : String)
    (security_groups : SecurityGroups) (flavor_name key_name : String)
    (cloud_config : Option String) : CreateRequest :=
  let flavor := flavorFind flavor_name
  let sgs := security_groups.toList
  let user_data := if pyTruthy cloud_config then cloud_config else none
  { name := instance_name, image := image_id, flavor := flavor,
    security_groups := sgs, key_name := key_name, userdata := user_data,
    meta := none }

/-- Claim C9: both create-instance helpers accept a single security-group
name or a list of names: for every non-list value `sg`, the create request
issued equals the one issued for the one-element list `[sg]`, all other
arguments equal. -/
theorem claim_C9_security_group_wrap :
    (∀ (flavorFind : String → Nat) (image_id instance_name sg flavor_name key_name : String)
      (metadata : Option (List (String × String))) (cloud_init : Option String),
      OS1Manager.create_instance flavorFind image_id instance_name (.name sg)
          flavor_name key_name metadata cloud_init
        = OS1Manager.create_instance flavorFind image_id instance_name (.names [sg])
          flavor_name key_name metadata cloud_init)
    ∧ (∀ (flavorFind : String → Nat) (image_id instance_name sg flavor_name key_name : String)
      (cloud_config : Option String),
      create_instance_request flavorFind image_id instance_name (.name sg)
          flavor_name key_name cloud_config
        = create_instance_request flavorFind image_id instance_name (.names [sg])
          flavor_name key_name cloud_config) :=
  ⟨fun _ _ _ _ _ _ _ _ => rfl, fun _ _ _ _ _ _ _ => rfl⟩

/-- One `parser.add_argument(...)` entry of `deploy-environment.py`: the flag
string, whether `required=True` was passed, whether `action='store_true'` was
passed, and the declared default value if any. -/
structure ArgumentSpec where
  flag : String
  required : Bool
  store_true : Bool
  dflt : Option String
deriving DecidableEq

/-- The argument table built at lines 587–605 of `deploy-environment.py`, one
entry per `parser.add_argument` call, in source order. -/
def parser_arguments : List ArgumentSpec := [
  ⟨"--distribution", true, false, none⟩,
  ⟨"--key-file", true, false, none⟩,
  ⟨"--os1-key", true, false, none⟩,
  ⟨"--consumer-puppet", true, false, none⟩,
  ⟨"--server-puppet", true, false, none⟩,
  ⟨"--security-group", false, false, some "pulp"⟩,
  ⟨"--flavor", false, false, some "m1.medium"⟩,
  ⟨"--repository", false, false,
    some "http://satellite6.lab.eng.rdu2.redhat.com/pulp/testing/2.4/latest"⟩,
  ⟨"--os1-username", false, false, none⟩,
  ⟨"--os1-password", false, false, none⟩,
  ⟨"--os1-tenant-id", false, false, none⟩,
  ⟨"--os1-tenant-name", false, false, none⟩,
  ⟨"--os1-auth-url", false, false, none⟩,
  ⟨"--consumer-hostname", false, false, some "pulp-consumer"⟩,
  ⟨"--server-hostname", false, false, some "pulp-server"⟩,
  ⟨"--tester-hostname", false, false, some "pulp-tester"⟩,
  ⟨"--setup-only", false, true, none⟩]

/-- Claim C7 counterexample: the command line defines exactly the seventeen
flags below; the only boolean (`store_true`) flag is `--setup-only`. So there
is no argument taking a YAML topology file path, no flag to run the
integration tests (they run unless `--setup-only` is given), and no flag to
skip teardown. -/
theorem claim_C7_counterexample :
    parser_arguments.map (fun a => a.flag)
      = ["--distribution", "--key-file", "--os1-key", "--consumer-puppet",
         "--server-puppet", "--security-group", "--flavor", "--repository",
         "--os1-username", "--os1-password", "--os1-tenant-id",
         "--os1-tenant-name", "--os1-auth-url", "--consumer-hostname",
         "--server-hostname", "--tester-hostname", "--setup-only"]
    ∧ (∀ a ∈ parser_arguments, a.store_true = true → a.flag = "--setup-only") := by
  constructor
  · rfl
  · decide

/-- Claim C7 (amended): the command line requires a distribution, the private
key path, the OS1 key-pair name and the consumer and server puppet module
paths; it offers optional security-group, flavor and repository overrides
(the repository default is the satellite6 testing URL), optional OS1
credentials and hostnames; and its single boolean flag is `--setup-only`. -/
theorem claim_C7_cli_arguments :
    (parser_arguments.filter (fun a => a.required)).map (fun a => a.flag)
      = ["--distribution", "--key-file", "--os1-key", "--consumer-puppet",
         "--server-puppet"]
    ∧ (parser_arguments.filter (fun a => a.store_true)).map (fun a => a.flag)
      = ["--setup-only"]
    ∧ (parser_arguments.find? (fun a => a.flag == "--repository")).map (fun a => a.dflt)
      = some (some "http://satellite6.lab.eng.rdu2.redhat.com/pulp/testing/2.4/latest") := by
  refine ⟨rfl, rfl, by decide⟩

/-- Externally visible events of a `run_tests` run, in order. -/
inductive Event
  | createRequest (name : String)
  | statusPoll (name : String)
  | configureServer (host : String)
  | configureConsumer (host : String)
  | configureTester (host : String)
  | runTests
  | getResults
  | tearDownCall (names : List String)
  | deleteCall (name : String)
deriving DecidableEq

/-- Outcome of the process: a `sys.exit` code, or an uncaught exception
propagating out of `run_tests`. -/
inductive Outcome
  | exited (code : Nat)
  | raised (msg : String)
deriving DecidableEq

/-- The exit status of the Python process: `sys.exit(code)` exits with
`code`; an uncaught exception makes the interpreter exit with status 1. -/
def processExitCode : Outcome → Nat
  | .exited code => code
  | .raised _ => 1

/-- A built instance as `run_tests` sees it: its name and the last status
observed by `create_instance`. -/
structure Instance where
  name : String
  status : String
deriving DecidableEq

/-- Environment of a `run_tests` run: what the filesystem, the cloud and the
remote hosts do at each step the script performs. For instance `n`,
`buildPolls n` is the number of observations for which the cloud reports
`BUILD` before reporting `afterStatus n` (0 means the create response is
already out of the build state). The `...Fails`/`...Raises` flags inject an
exception into the corresponding remote call. `testOutput`/`testReturnCode`
are the fabric result of the nosetests run — a string-like object whose
truthiness is that of its text. -/
structure Env where
  key_file_isfile : Bool
  consumer_puppet_isfile : Bool
  server_puppet_isfile : Bool
  distribution_found : Bool
  buildPolls : String → Nat
  afterStatus : String → String
  serverConfigFails : Bool
  consumerConfigFails : Bool
  testerConfigFails : Bool
  testRunRaises : Bool
  getResultsFails : Bool
  testOutput : String
  testReturnCode : Nat

/-- Status observation `k` for instance `name`: observation 0 is the status
on the create response, each later one the result of a `nova.servers.get`. -/
def obsStatus (env : Env) (name : String) (k : Nat) : String :=
  if k < env.buildPolls name then OPENSTACK_BUILD_KEYWORD else env.afterStatus name

/-- The wait loop of `create_instance` in `deploy-environment.py`
(`while server.status == OPENSTACK_BUILD_KEYWORD: sleep(10); server =
nova.servers.get(server.id)`), as the list of polls it performs starting from
observation `k`. The fuel bound covers every environment in which the Python
loop terminates; when `afterStatus name` is itself `BUILD` the Python loop
never returns and the model truncates. -/
def create_wait_loop (env : Env) (name : String) : Nat → Nat → List Event
  | _, 0 => []
  | k, fuel + 1 =>
    if obsStatus env name k = OPENSTACK_BUILD_KEYWORD then
      Event.statusPoll name :: create_wait_loop env name (k + 1) fuel
    else []

/-- The events of one `create_instance` call in `deploy-environment.py`
(lines 146–164): the create request, then the polls of its wait loop. -/
def create_instance_events (env : Env) (name : String) : List Event :=
  Event.createRequest name :: create_wait_loop env name 0 (env.buildPolls name + 1)

/-- The instance returned by that `create_instance` call: its status is the
first non-`BUILD` observation. -/
def create_instance_result (env : Env) (name : String) : Instance :=
  { name := name, status := env.afterStatus name }

/-- `tear_down` from `deploy-environment.py` (lines 488–491): call
`server.delete()` on every instance of the list, in order. -/
def tear_down (servers : List Instance) : List Event :=
  servers.map (fun server => Event.deleteCall server.name)

/-- Python `a or b` for an optional string `a` (`None` and `''` fall through
to the default), as used for the hostname defaults in `run_tests`. -/
def pyOr (a : Option String) (b : String) : String :=
  match a with
  | some s => if s == "" then b else s
  | none => b

/-- The argparse namespace fields `run_tests` branches on. Fields that only
parameterize the contents of requests the event trace does not record (OS1
credentials, key names, security group, flavor, repository) are omitted. -/
structure Args where
  distribution : String
  key_file : String
  consumer_puppet : String
  server_puppet : String
  server_hostname : Option String
  consumer_hostname : Option String
  tester_hostname : Option String
  setup_only : Bool

/-- `run_tests` from `deploy-environment.py` (lines 494–575): validate the
input files, authenticate, look up the distribution image, build the three
instances one after the other (each create call waiting on its own
instance), configure server then consumer then tester, and — unless
`--setup-only` was given — run the tests under a `try/finally` whose
`finally` calls `tear_down([pulp_server, pulp_tester, pulp_consumer])`.
Afterwards `sys.exit(result.return_code)` if the fabric result is truthy,
else `sys.exit(1)`; an injected exception propagates (aborting the rest). -/
def run_tests (args : Args) (env : Env) : List Event × Outcome :=
  let pulp_server_hostname := pyOr args.server_hostname "pulp-server"
  let pulp_consumer_hostname := pyOr args.consumer_hostname "pulp-consumer"
  let pulp_tester_hostname := pyOr args.tester_hostname "pulp-tester"
  if !env.key_file_isfile then
    ([], .raised (args.key_file ++ " is not a file"))
  else if !env.consumer_puppet_isfile then
    ([], .raised (args.consumer_puppet ++ " is not a file"))
  else if !env.server_puppet_isfile then
    ([], .raised (args.server_puppet ++ " is not a file"))
  else if !env.distribution_found then
    ([], .raised ("Distribution [" ++ args.distribution ++ "] does not exist"))
  else
    let pulp_server := create_instance_result env pulp_server_hostname
    let pulp_consumer := create_instance_result env pulp_consumer_hostname
    let pulp_tester := create_instance_result env pulp_tester_hostname
    let buildEvents :=
      create_instance_events env pulp_server_hostname
        ++ create_instance_events env pulp_consumer_hostname
        ++ create_instance_events env pulp_tester_hostname
    if env.serverConfigFails then
      (buildEvents ++ [Event.configureServer pulp_server_hostname],
       .raised "configure_server failed")
    else if env.consumerConfigFails then
      (buildEvents ++ [Event.configureServer pulp_server_hostname,
        Event.configureConsumer pulp_consumer_hostname],
       .raised "configure_consumer failed")
    else if env.testerConfigFails then
      (buildEvents ++ [Event.configureServer pulp_server_hostname,
        Event.configureConsumer pulp_consumer_hostname,
        Event.configureTester pulp_tester_hostname],
       .raised "configure_tester failed")
    else
      let configEvents := [Event.configureServer pulp_server_hostname,
        Event.configureConsumer pulp_consumer_hostname,
        Event.configureTester pulp_tester_hostname]
      if args.setup_only then
        (buildEvents ++ configEvents, .exited 1)
      else
        let teardownEvents :=
          Event.tearDownCall [pulp_server.name, pulp_tester.name, pulp_consumer.name]
            :: tear_down [pulp_server, pulp_tester, pulp_consumer]
        if env.testRunRaises then
          (buildEvents ++ configEvents ++ Event.runTests :: teardownEvents,
           .raised "test run failed")
        else if env.getResultsFails then
          (buildEvents ++ configEvents
            ++ Event.runTests :: Event.getResults :: teardownEvents,
           .raised "retrieving nosetests.xml failed")
        else
          (buildEvents ++ configEvents
            ++ Event.runTests :: Event.getResults :: teardownEvents,
           if !(env.testOutput == "") then .exited env.testReturnCode else .exited 1)

/-- Event classifier: `server.delete()` calls. -/
def Event.isDeleteCall : Event → Bool
  | .deleteCall _ => true
  | _ => false

/-- Event classifier: configuration calls of any role. -/
def Event.isConfigure : Event → Bool
  | .configureServer _ => true
  | .configureConsumer _ => true
  | .configureTester _ => true
  | _ => false

/-- Event classifier: `nova.servers.create` requests. -/
def Event.isCreateRequest : Event → Bool
  | .createRequest _ => true
  | _ => false

/-- Event classifier: status polls of the create wait loops. -/
def Event.isStatusPoll : Event → Bool
  | .statusPoll _ => true
  | _ => false

/-- Event classifier: invocations of `tear_down`. -/
def Event.isTearDownCall : Event → Bool
  | .tearDownCall _ => true
  | _ => false

/-- The delete calls of a trace, in order. -/
def deletesOf (tr : List Event) : List Event := tr.filter Event.isDeleteCall

/-- The configuration calls of a trace, in order. -/
def configsOf (tr : List Event) : List Event := tr.filter Event.isConfigure

/-- The `tear_down` invocations of a trace, in order. -/
def tearDownCallsOf (tr : List Event) : List Event := tr.filter Event.isTearDownCall

/-- Every event of a create wait loop is a status poll of that instance. -/
theorem mem_create_wait_loop (env : Env) (name : String) :
    ∀ fuel k e, e ∈ create_wait_loop env name k fuel → e = Event.statusPoll name := by
  intro fuel
  induction fuel with
  | zero => intro k e he; simp [create_wait_loop] at he
  | succ n ih =>
    intro k e he
    rw [create_wait_loop] at he
    by_cases hb : obsStatus env name k = OPENSTACK_BUILD_KEYWORD
    · rw [if_pos hb] at he
      rcases List.mem_cons.mp he with h | h
      · exact h
      · exact ih (k + 1) e h
    · rw [if_neg hb] at he
      simp at he

/-- Every event of a `create_instance` call is its create request or a status
poll of that instance. -/
theorem mem_create_instance_events (env : Env) (name : String) (e : Event)
    (he : e ∈ create_instance_events env name) :
    e = Event.createRequest name ∨ e = Event.statusPoll name := by
  rcases List.mem_cons.mp he with h | h
  · exact Or.inl h
  · exact Or.inr (mem_create_wait_loop env name _ 0 e h)

/-- Filtering a `create_instance` chunk with a predicate that rejects create
requests and status polls yields nothing. -/
theorem filter_create_instance_events (env : Env) (name : String) (p : Event → Bool)
    (hc : p (Event.createRequest name) = false) (hp : p (Event.statusPoll name) = false) :
    (create_instance_events env name).filter p = [] := by
  refine List.filter_eq_nil.mpr ?_
  intro e he
  rcases mem_create_instance_events env name e he with h | h <;> simp [h, hc, hp]

theorem filter_isDeleteCall_create (env : Env) (name : String) :
    (create_instance_events env name).filter Event.isDeleteCall = [] :=
  filter_create_instance_events env name _ rfl rfl

theorem filter_isConfigure_create (env : Env) (name : String) :
    (create_instance_events env name).filter Event.isConfigure = [] :=
  filter_create_instance_events env name _ rfl rfl

theorem filter_isTearDownCall_create (env : Env) (name : String) :
    (create_instance_events env name).filter Event.isTearDownCall = [] :=
  filter_create_instance_events env name _ rfl rfl

/-- Every delete of `tear_down` survives the delete filter. -/
theorem filter_isDeleteCall_tear_down (servers : List Instance) :
    (tear_down servers).filter Event.isDeleteCall = tear_down servers := by
  induction servers with
  | nil => rfl
  | cons s rest ih => simpa [tear_down, List.filter_cons, Event.isDeleteCall] using ih

theorem filter_isConfigure_tear_down (servers : List Instance) :
    (tear_down servers).filter Event.isConfigure = [] := by
  induction servers with
  | nil => rfl
  | cons s rest ih => simpa [tear_down, List.filter_cons, Event.isConfigure] using ih

theorem filter_isTearDownCall_tear_down (servers : List Instance) :
    (tear_down servers).filter Event.isTearDownCall = [] := by
  induction servers with
  | nil => rfl
  | cons s rest ih => simpa [tear_down, List.filter_cons, Event.isTearDownCall] using ih

/-- Delete calls of a full run: exactly the runs that reach the test phase
(validation passed, all three configurations succeeded, `--setup-only` not
given) delete the three instances — server, tester, consumer, in the order
`tear_down` receives them — and every other run deletes nothing. -/
theorem deletesOf_run_tests (args : Args) (env : Env) :
    deletesOf (run_tests args env).1 =
      if env.key_file_isfile && env.consumer_puppet_isfile && env.server_puppet_isfile
          && env.distribution_found && !env.serverConfigFails && !env.consumerConfigFails
          && !env.testerConfigFails && !args.setup_only then
        [Event.deleteCall (pyOr args.server_hostname "pulp-server"),
         Event.deleteCall (pyOr args.tester_hostname "pulp-tester"),
         Event.deleteCall (pyOr args.consumer_hostname "pulp-consumer")]
      else [] := by
  cases h1 : env.key_file_isfile with
  | false => simp [run_tests, deletesOf, h1]
  | true =>
  cases h2 : env.consumer_puppet_isfile with
  | false => simp [run_tests, deletesOf, h1, h2]
  | true =>
  cases h3 : env.server_puppet_isfile with
  | false => simp [run_tests, deletesOf, h1, h2, h3]
  | true =>
  cases h4 : env.distribution_found with
  | false => simp [run_tests, deletesOf, h1, h2, h3, h4]
  | true =>
  cases h5 : env.serverConfigFails with
  | true =>
    simp [run_tests, deletesOf, h1, h2, h3, h4, h5, List.filter_append,
      filter_isDeleteCall_create, List.filter_cons, Event.isDeleteCall]
  | false =>
  cases h6 : env.consumerConfigFails with
  | true =>
    simp [run_tests, deletesOf, h1, h2, h3, h4, h5, h6, List.filter_append,
      filter_isDeleteCall_create, List.filter_cons, Event.isDeleteCall]
  | false =>
  cases h7 : env.testerConfigFails with
  | true =>
    simp [run_tests, deletesOf, h1, h2, h3, h4, h5, h6, h7, List.filter_append,
      filter_isDeleteCall_create, List.filter_cons, Event.isDeleteCall]
  | false =>
  cases h8 : args.setup_only with
  | true =>
    simp [run_tests, deletesOf, h1, h2, h3, h4, h5, h6, h7, h8, List.filter_append,
      filter_isDeleteCall_create, List.filter_cons, Event.isDeleteCall]
  | false =>
  cases h9 : env.testRunRaises with
  | true =>
    simp [run_tests, deletesOf, h1, h2, h3, h4, h5, h6, h7, h8, h9, List.filter_append,
      filter_isDeleteCall_create, filter_isDeleteCall_tear_down, tear_down,
      create_instance_result, List.filter_cons, Event.isDeleteCall]
  | false =>
  cases h10 : env.getResultsFails with
  | true =>
    simp [run_tests, deletesOf, h1, h2, h3, h4, h5, h6, h7, h8, h9, h10, List.filter_append,
      filter_isDeleteCall_create, filter_isDeleteCall_tear_down, tear_down,
      create_instance_result, List.filter_cons, Event.isDeleteCall]
  | false =>
    simp [run_tests, deletesOf, h1, h2, h3, h4, h5, h6, h7, h8, h9, h10, List.filter_append,
      filter_isDeleteCall_create, filter_isDeleteCall_tear_down, tear_down,
      create_instance_result, List.filter_cons, Event.isDeleteCall]

/-- The `tear_down` invocations of a full run: exactly the runs that reach
the test phase call `tear_down`, once, with the three instance names in the
order server, tester, consumer. -/
theorem tearDownCallsOf_run_tests (args : Args) (env : Env) :
    tearDownCallsOf (run_tests args env).1 =
      if env.key_file_isfile && env.consumer_puppet_isfile && env.server_puppet_isfile
          && env.distribution_found && !env.serverConfigFails && !env.consumerConfigFails
          && !env.testerConfigFails && !args.setup_only then
        [Event.tearDownCall [pyOr args.server_hostname "pulp-server",
          pyOr args.tester_hostname "pulp-tester",
          pyOr args.consumer_hostname "pulp-consumer"]]
      else [] := by
  cases h1 : env.key_file_isfile with
  | false =>
    simp [run_tests, tearDownCallsOf, List.filter_append, filter_isTearDownCall_create, filter_isTearDownCall_tear_down, tear_down, create_instance_result, List.filter_cons, Event.isTearDownCall, h1]
  | true =>
  cases h2 : env.consumer_puppet_isfile with
  | false =>
    simp [run_tests, tearDownCallsOf, List.filter_append, filter_isTearDownCall_create, filter_isTearDownCall_tear_down, tear_down, create_instance_result, List.filter_cons, Event.isTearDownCall, h1, h2]
  | true =>
  cases h3 : env.server_puppet_isfile with
  | false =>
    simp [run_tests, tearDownCallsOf, List.filter_append, filter_isTearDownCall_create, filter_isTearDownCall_tear_down, tear_down, create_instance_result, List.filter_cons, Event.isTearDownCall, h1, h2, h3]
  | true =>
  cases h4 : env.distribution_found with
  | false =>
    simp [run_tests, tearDownCallsOf, List.filter_append, filter_isTearDownCall_create, filter_isTearDownCall_tear_down, tear_down, create_instance_result, List.filter_cons, Event.isTearDownCall, h1, h2, h3, h4]
  | true =>
  cases h5 : env.serverConfigFails with
  | true =>
    simp [run_tests, tearDownCallsOf, List.filter_append, filter_isTearDownCall_create, filter_isTearDownCall_tear_down, tear_down, create_instance_result, List.filter_cons, Event.isTearDownCall, h1, h2, h3, h4, h5]
  | false =>
  cases h6 : env.consumerConfigFails with
  | true =>
    simp [run_tests, tearDownCallsOf, List.filter_append, filter_isTearDownCall_create, filter_isTearDownCall_tear_down, tear_down, create_instance_result, List.filter_cons, Event.isTearDownCall, h1, h2, h3, h4, h5, h6]
  | false =>
  cases h7 : env.testerConfigFails with
  | true =>
    simp [run_tests, tearDownCallsOf, List.filter_append, filter_isTearDownCall_create, filter_isTearDownCall_tear_down, tear_down, create_instance_result, List.filter_cons, Event.isTearDownCall, h1, h2, h3, h4, h5, h6, h7]
  | false =>
  cases h8 : args.setup_only with
  | true =>
    simp [run_tests, tearDownCallsOf, List.filter_append, filter_isTearDownCall_create, filter_isTearDownCall_tear_down, tear_down, create_instance_result, List.filter_cons, Event.isTearDownCall, h1, h2, h3, h4, h5, h6, h7, h8]
  | false =>
  cases h9 : env.testRunRaises with
  | true =>
    simp [run_tests, tearDownCallsOf, List.filter_append, filter_isTearDownCall_create, filter_isTearDownCall_tear_down, tear_down, create_instance_result, List.filter_cons, Event.isTearDownCall, h1, h2, h3, h4, h5, h6, h7, h8, h9]
  | false =>
  cases h10 : env.getResultsFails with
  | true =>
    simp [run_tests, tearDownCallsOf, List.filter_append, filter_isTearDownCall_create, filter_isTearDownCall_tear_down, tear_down, create_instance_result, List.filter_cons, Event.isTearDownCall, h1, h2, h3, h4, h5, h6, h7, h8, h9, h10]
  | false =>
  simp [run_tests, tearDownCallsOf, List.filter_append, filter_isTearDownCall_create, filter_isTearDownCall_tear_down, tear_down, create_instance_result, List.filter_cons, Event.isTearDownCall, h1, h2, h3, h4, h5, h6, h7, h8, h9, h10]

/-- Configuration calls of a full run: configuration is attempted in the
order server, consumer, tester, each role at most once, and a failing
configuration aborts the rest of the walk. -/
theorem configsOf_run_tests (args : Args) (env : Env) :
    configsOf (run_tests args env).1 =
      if env.key_file_isfile && env.consumer_puppet_isfile && env.server_puppet_isfile
          && env.distribution_found then
        (if env.serverConfigFails then
          [Event.configureServer (pyOr args.server_hostname "pulp-server")]
        else if env.consumerConfigFails then
          [Event.configureServer (pyOr args.server_hostname "pulp-server"),
           Event.configureConsumer (pyOr args.consumer_hostname "pulp-consumer")]
        else
          [Event.configureServer (pyOr args.server_hostname "pulp-server"),
           Event.configureConsumer (pyOr args.consumer_hostname "pulp-consumer"),
           Event.configureTester (pyOr args.tester_hostname "pulp-tester")])
      else [] := by
  cases h1 : env.key_file_isfile with
  | false =>
    simp [run_tests, configsOf, List.filter_append, filter_isConfigure_create, filter_isConfigure_tear_down, tear_down, create_instance_result, List.filter_cons, Event.isConfigure, h1]
  | true =>
  cases h2 : env.consumer_puppet_isfile with
  | false =>
    simp [run_tests, configsOf, List.filter_append, filter_isConfigure_create, filter_isConfigure_tear_down, tear_down, create_instance_result, List.filter_cons, Event.isConfigure, h1, h2]
  | true =>
  cases h3 : env.server_puppet_isfile with
  | false =>
    simp [run_tests, configsOf, List.filter_append, filter_isConfigure_create, filter_isConfigure_tear_down, tear_down, create_instance_result, List.filter_cons, Event.isConfigure, h1, h2, h3]
  | true =>
  cases h4 : env.distribution_found with
  | false =>
    simp [run_tests, configsOf, List.filter_append, filter_isConfigure_create, filter_isConfigure_tear_down, tear_down, create_instance_result, List.filter_cons, Event.isConfigure, h1, h2, h3, h4]
  | true =>
  cases h5 : env.serverConfigFails with
  | true =>
    simp [run_tests, configsOf, List.filter_append, filter_isConfigure_create, filter_isConfigure_tear_down, tear_down, create_instance_result, List.filter_cons, Event.isConfigure, h1, h2, h3, h4, h5]
  | false =>
  cases h6 : env.consumerConfigFails with
  | true =>
    simp [run_tests, configsOf, List.filter_append, filter_isConfigure_create, filter_isConfigure_tear_down, tear_down, create_instance_result, List.filter_cons, Event.isConfigure, h1, h2, h3, h4, h5, h6]
  | false =>
  cases h7 : env.testerConfigFails with
  | true =>
    simp [run_tests, configsOf, List.filter_append, filter_isConfigure_create, filter_isConfigure_tear_down, tear_down, create_instance_result, List.filter_cons, Event.isConfigure, h1, h2, h3, h4, h5, h6, h7]
  | false =>
  cases h8 : args.setup_only with
  | true =>
    simp [run_tests, configsOf, List.filter_append, filter_isConfigure_create, filter_isConfigure_tear_down, tear_down, create_instance_result, List.filter_cons, Event.isConfigure, h1, h2, h3, h4, h5, h6, h7, h8]
  | false =>
  cases h9 : env.testRunRaises with
  | true =>
    simp [run_tests, configsOf, List.filter_append, filter_isConfigure_create, filter_isConfigure_tear_down, tear_down, create_instance_result, List.filter_cons, Event.isConfigure, h1, h2, h3, h4, h5, h6, h7, h8, h9]
  | false =>
  cases h10 : env.getResultsFails with
  | true =>
    simp [run_tests, configsOf, List.filter_append, filter_isConfigure_create, filter_isConfigure_tear_down, tear_down, create_instance_result, List.filter_cons, Event.isConfigure, h1, h2, h3, h4, h5, h6, h7, h8, h9, h10]
  | false =>
  simp [run_tests, configsOf, List.filter_append, filter_isConfigure_create, filter_isConfigure_tear_down, tear_down, create_instance_result, List.filter_cons, Event.isConfigure, h1, h2, h3, h4, h5, h6, h7, h8, h9, h10]

/-- The condition under which the run completes normally with a truthy test
result: validation and configuration succeed, `--setup-only` is off, the two
remote test-phase operations succeed, and the fabric result text is
non-empty (Python truthiness of the string-like result object). -/
def tests_ran_with_result (args : Args) (env : Env) : Bool :=
  env.key_file_isfile && env.consumer_puppet_isfile && env.server_puppet_isfile
    && env.distribution_found && !env.serverConfigFails && !env.consumerConfigFails
    && !env.testerConfigFails && !args.setup_only && !env.testRunRaises
    && !env.getResultsFails && !(env.testOutput == "")

/-- Claim C6: the process exit code mirrors the integration-test runner's
return code whenever the tests ran and produced a (truthy) result, and is 1
otherwise — on any internal failure (a propagating exception makes the
interpreter exit with status 1) and on every run without a test result, such
as a `--setup-only` run. -/
theorem claim_C6_exit_code (args : Args) (env : Env) :
    processExitCode (run_tests args env).2
      = if tests_ran_with_result args env then env.testReturnCode else 1 := by
  cases h1 : env.key_file_isfile with
  | false =>
    simp [run_tests, tests_ran_with_result, processExitCode, h1]
  | true =>
  cases h2 : env.consumer_puppet_isfile with
  | false =>
    simp [run_tests, tests_ran_with_result, processExitCode, h1, h2]
  | true =>
  cases h3 : env.server_puppet_isfile with
  | false =>
    simp [run_tests, tests_ran_with_result, processExitCode, h1, h2, h3]
  | true =>
  cases h4 : env.distribution_found with
  | false =>
    simp [run_tests, tests_ran_with_result, processExitCode, h1, h2, h3, h4]
  | true =>
  cases h5 : env.serverConfigFails with
  | true =>
    simp [run_tests, tests_ran_with_result, processExitCode, h1, h2, h3, h4, h5]
  | false =>
  cases h6 : env.consumerConfigFails with
  | true =>
    simp [run_tests, tests_ran_with_result, processExitCode, h1, h2, h3, h4, h5, h6]
  | false =>
  cases h7 : env.testerConfigFails with
  | true =>
    simp [run_tests, tests_ran_with_result, processExitCode, h1, h2, h3, h4, h5, h6, h7]
  | false =>
  cases h8 : args.setup_only with
  | true =>
    simp [run_tests, tests_ran_with_result, processExitCode, h1, h2, h3, h4, h5, h6, h7, h8]
  | false =>
  cases h9 : env.testRunRaises with
  | true =>
    simp [run_tests, tests_ran_with_result, processExitCode, h1, h2, h3, h4, h5, h6, h7, h8, h9]
  | false =>
  cases h10 : env.getResultsFails with
  | true =>
    simp [run_tests, tests_ran_with_result, processExitCode, h1, h2, h3, h4, h5, h6, h7, h8, h9, h10]
  | false =>
  cases h11 : env.testOutput == "" with
  | true =>
    simp [run_tests, tests_ran_with_result, processExitCode, h1, h2, h3, h4, h5, h6, h7, h8, h9, h10, h11]
  | false =>
  simp [run_tests, tests_ran_with_result, processExitCode, h1, h2, h3, h4, h5, h6, h7, h8, h9, h10, h11]

/-- Command-line arguments with every hostname left to its default and
`--setup-only` off. -/
def argsDefault : Args :=
  { distribution := "fc20", key_file := "/home/u/key.pem",
    consumer_puppet := "consumer.pp", server_puppet := "server.pp",
    server_hostname := none, consumer_hostname := none, tester_hostname := none,
    setup_only := false }

/-- A benign environment: validation passes, every instance is active on its
create response, every remote step succeeds and the tests produce output. -/
def envBenign : Env :=
  { key_file_isfile := true, consumer_puppet_isfile := true,
    server_puppet_isfile := true, distribution_found := true,
    buildPolls := fun _ => 0, afterStatus := fun _ => "ACTIVE",
    serverConfigFails := false, consumerConfigFails := false,
    testerConfigFails := false, testRunRaises := false, getResultsFails := false,
    testOutput := "ok", testReturnCode := 0 }

/-- Claim C1 counterexample: in a run where `configure_server` raises after
all three instances were created, the exception propagates out of `run_tests`
and no instance is ever passed to a delete call — teardown is not in a
failure-safe block around configuration. -/
theorem claim_C1_counterexample :
    (Event.createRequest "pulp-server"
        ∈ (run_tests argsDefault { envBenign with serverConfigFails := true }).1
      ∧ Event.createRequest "pulp-consumer"
        ∈ (run_tests argsDefault { envBenign with serverConfigFails := true }).1
      ∧ Event.createRequest "pulp-tester"
        ∈ (run_tests argsDefault { envBenign with serverConfigFails := true }).1)
    ∧ deletesOf (run_tests argsDefault { envBenign with serverConfigFails := true }).1 = []
    ∧ (run_tests argsDefault { envBenign with serverConfigFails := true }).2
        = .raised "configure_server failed" := by
  decide

/-- Claim C1 (amended): teardown is attempted in a `finally` block only
around the integration-test step. Whenever the run reaches the test phase
(validation and all three configurations succeed and `--setup-only` is off),
all three instances are passed to delete calls regardless of test-phase
failures; but a run whose server configuration fails, or a `--setup-only`
run, exits without any delete call. -/
theorem claim_C1_teardown_scope :
    (∀ (args : Args) (env : Env),
      env.key_file_isfile = true → env.consumer_puppet_isfile = true →
      env.server_puppet_isfile = true → env.distribution_found = true →
      env.serverConfigFails = false → env.consumerConfigFails = false →
      env.testerConfigFails = false → args.setup_only = false →
      deletesOf (run_tests args env).1
        = [Event.deleteCall (pyOr args.server_hostname "pulp-server"),
           Event.deleteCall (pyOr args.tester_hostname "pulp-tester"),
           Event.deleteCall (pyOr args.consumer_hostname "pulp-consumer")])
    ∧ (∀ (args : Args) (env : Env), env.serverConfigFails = true →
      deletesOf (run_tests args env).1 = [])
    ∧ (∀ (args : Args) (env : Env), args.setup_only = true →
      deletesOf (run_tests args env).1 = []) := by
  refine ⟨?_, ?_, ?_⟩
  · intro args env h1 h2 h3 h4 h5 h6 h7 h8
    rw [deletesOf_run_tests]
    simp [h1, h2, h3, h4, h5, h6, h7, h8]
  · intro args env h5
    rw [deletesOf_run_tests]
    simp [h5]
  · intro args env h8
    rw [deletesOf_run_tests]
    simp [h8]

/-- Witness for claim C1: even when the remote test run raises, the test
phase still deletes all three instances; a `--setup-only` run deletes
nothing. -/
theorem claim_C1_teardown_scope_witness :
    deletesOf (run_tests argsDefault { envBenign with testRunRaises := true }).1
      = [Event.deleteCall (pyOr argsDefault.server_hostname "pulp-server"),
         Event.deleteCall (pyOr argsDefault.tester_hostname "pulp-tester"),
         Event.deleteCall (pyOr argsDefault.consumer_hostname "pulp-consumer")]
    ∧ deletesOf (run_tests { argsDefault with setup_only := true } envBenign).1 = [] :=
  ⟨claim_C1_teardown_scope.1 argsDefault { envBenign with testRunRaises := true }
      rfl rfl rfl rfl rfl rfl rfl rfl,
   claim_C1_teardown_scope.2.2 { argsDefault with setup_only := true } envBenign rfl⟩

/-- When the after-build status is not `BUILD` (i.e. the Python loop
terminates), the create wait loop performs exactly one poll per remaining
`BUILD` observation. -/
theorem create_wait_loop_eq_replicate (env : Env) (name : String)
    (h : env.afterStatus name ≠ OPENSTACK_BUILD_KEYWORD) :
    ∀ fuel k, env.buildPolls name ≤ k + fuel →
      create_wait_loop env name k fuel
        = List.replicate (env.buildPolls name - k) (Event.statusPoll name) := by
  intro fuel
  induction fuel with
  | zero =>
    intro k hk
    have hz : env.buildPolls name - k = 0 := by omega
    simp [create_wait_loop, hz]
  | succ n ih =>
    intro k hk
    rw [create_wait_loop]
    by_cases hb : obsStatus env name k = OPENSTACK_BUILD_KEYWORD
    · have hklt : k < env.buildPolls name := by
        by_contra hge
        apply h
        have hobs : obsStatus env name k = env.afterStatus name := by
          unfold obsStatus
          rw [if_neg hge]
        exact hobs ▸ hb
      rw [if_pos hb, ih (k + 1) (by omega)]
      have hone : env.buildPolls name - k = (env.buildPolls name - (k + 1)) + 1 := by omega
      rw [hone, List.replicate_succ]
    · rw [if_neg hb]
      have hge : env.buildPolls name ≤ k := by
        by_contra hlt
        apply hb
        unfold obsStatus
        rw [if_pos (by omega)]
      have hz : env.buildPolls name - k = 0 := by omega
      simp [hz]

/-- A terminating `create_instance` call is its create request followed by
one status poll per `BUILD` observation. -/
theorem create_instance_events_eq (env : Env) (name : String)
    (h : env.afterStatus name ≠ OPENSTACK_BUILD_KEYWORD) :
    create_instance_events env name
      = Event.createRequest name
          :: List.replicate (env.buildPolls name) (Event.statusPoll name) := by
  unfold create_instance_events
  rw [create_wait_loop_eq_replicate env name h (env.buildPolls name + 1) 0 (by omega),
    Nat.sub_zero]

/-- Once validation passes, the run trace starts with the three
`create_instance` chunks, one per instance, in order. -/
theorem run_tests_trace_shape (args : Args) (env : Env)
    (h1 : env.key_file_isfile = true) (h2 : env.consumer_puppet_isfile = true)
    (h3 : env.server_puppet_isfile = true) (h4 : env.distribution_found = true) :
    ∃ rest, (run_tests args env).1
      = create_instance_events env (pyOr args.server_hostname "pulp-server")
        ++ (create_instance_events env (pyOr args.consumer_hostname "pulp-consumer")
        ++ (create_instance_events env (pyOr args.tester_hostname "pulp-tester") ++ rest)) := by
  cases h5 : env.serverConfigFails with
  | true =>
    exact ⟨[Event.configureServer (pyOr args.server_hostname "pulp-server")],
      by simp [run_tests, h1, h2, h3, h4, h5, List.append_assoc]⟩
  | false =>
  cases h6 : env.consumerConfigFails with
  | true =>
    exact ⟨[Event.configureServer (pyOr args.server_hostname "pulp-server"),
      Event.configureConsumer (pyOr args.consumer_hostname "pulp-consumer")],
      by simp [run_tests, h1, h2, h3, h4, h5, h6, List.append_assoc]⟩
  | false =>
  cases h7 : env.testerConfigFails with
  | true =>
    exact ⟨[Event.configureServer (pyOr args.server_hostname "pulp-server"),
      Event.configureConsumer (pyOr args.consumer_hostname "pulp-consumer"),
      Event.configureTester (pyOr args.tester_hostname "pulp-tester")],
      by simp [run_tests, h1, h2, h3, h4, h5, h6, h7, List.append_assoc]⟩
  | false =>
  cases h8 : args.setup_only with
  | true =>
    exact ⟨[Event.configureServer (pyOr args.server_hostname "pulp-server"),
      Event.configureConsumer (pyOr args.consumer_hostname "pulp-consumer"),
      Event.configureTester (pyOr args.tester_hostname "pulp-tester")],
      by simp [run_tests, h1, h2, h3, h4, h5, h6, h7, h8, List.append_assoc]⟩
  | false =>
  cases h9 : env.testRunRaises with
  | true =>
    exact ⟨[Event.configureServer (pyOr args.server_hostname "pulp-server"),
      Event.configureConsumer (pyOr args.consumer_hostname "pulp-consumer"),
      Event.configureTester (pyOr args.tester_hostname "pulp-tester")]
      ++ Event.runTests
      :: Event.tearDownCall [pyOr args.server_hostname "pulp-server",
          pyOr args.tester_hostname "pulp-tester", pyOr args.consumer_hostname "pulp-consumer"]
      :: [Event.deleteCall (pyOr args.server_hostname "pulp-server"),
          Event.deleteCall (pyOr args.tester_hostname "pulp-tester"),
          Event.deleteCall (pyOr args.consumer_hostname "pulp-consumer")],
      by simp [run_tests, h1, h2, h3, h4, h5, h6, h7, h8, h9, tear_down,
        create_instance_result, List.append_assoc]⟩
  | false =>
  cases h10 : env.getResultsFails with
  | true =>
    exact ⟨[Event.configureServer (pyOr args.server_hostname "pulp-server"),
      Event.configureConsumer (pyOr args.consumer_hostname "pulp-consumer"),
      Event.configureTester (pyOr args.tester_hostname "pulp-tester")]
      ++ Event.runTests :: Event.getResults
      :: Event.tearDownCall [pyOr args.server_hostname "pulp-server",
          pyOr args.tester_hostname "pulp-tester", pyOr args.consumer_hostname "pulp-consumer"]
      :: [Event.deleteCall (pyOr args.server_hostname "pulp-server"),
          Event.deleteCall (pyOr args.tester_hostname "pulp-tester"),
          Event.deleteCall (pyOr args.consumer_hostname "pulp-consumer")],
      by simp [run_tests, h1, h2, h3, h4, h5, h6, h7, h8, h9, h10, tear_down,
        create_instance_result, List.append_assoc]⟩
  | false =>
    exact ⟨[Event.configureServer (pyOr args.server_hostname "pulp-server"),
      Event.configureConsumer (pyOr args.consumer_hostname "pulp-consumer"),
      Event.configureTester (pyOr args.tester_hostname "pulp-tester")]
      ++ Event.runTests :: Event.getResults
      :: Event.tearDownCall [pyOr args.server_hostname "pulp-server",
          pyOr args.tester_hostname "pulp-tester", pyOr args.consumer_hostname "pulp-consumer"]
      :: [Event.deleteCall (pyOr args.server_hostname "pulp-server"),
          Event.deleteCall (pyOr args.tester_hostname "pulp-tester"),
          Event.deleteCall (pyOr args.consumer_hostname "pulp-consumer")],
      by simp [run_tests, h1, h2, h3, h4, h5, h6, h7, h8, h9, h10, tear_down,
        create_instance_result, List.append_assoc]⟩

/-- Does any status poll occur before a later create request in the trace?
The build-then-wait barrier of the claim holds exactly when this is false. -/
def pollBeforeCreate : List Event → Bool
  | [] => false
  | e :: rest => (Event.isStatusPoll e && rest.any Event.isCreateRequest) || pollBeforeCreate rest

/-- An environment in which the server instance needs one poll to leave the
`BUILD` state while the others are active immediately. -/
def envSlowServer : Env :=
  { envBenign with buildPolls := fun n => if n == "pulp-server" then 1 else 0 }

/-- Claim C3 counterexample: when the first instance is still building on its
create response, `run_tests` polls it before issuing the consumer's create
request — the trace begins create(server), poll(server), create(consumer), so
not all creation requests are issued before the first wait. -/
theorem claim_C3_counterexample :
    pollBeforeCreate (run_tests argsDefault envSlowServer).1 = true
    ∧ (run_tests argsDefault envSlowServer).1.take 3
        = [Event.createRequest "pulp-server", Event.statusPoll "pulp-server",
           Event.createRequest "pulp-consumer"] := by
  decide

/-- Claim C3 (amended): topology build is sequential rather than
build-then-wait: each `create_instance` call issues its create request and
polls that same instance until it leaves the building state before the next
create request is issued. The trace therefore starts with the server's
create and polls, then the consumer's, then the tester's, so polls of an
earlier instance precede the later create requests. -/
theorem claim_C3_sequential_build (args : Args) (env : Env)
    (h1 : env.key_file_isfile = true) (h2 : env.consumer_puppet_isfile = true)
    (h3 : env.server_puppet_isfile = true) (h4 : env.distribution_found = true)
    (hS : env.afterStatus (pyOr args.server_hostname "pulp-server")
      ≠ OPENSTACK_BUILD_KEYWORD)
    (hC : env.afterStatus (pyOr args.consumer_hostname "pulp-consumer")
      ≠ OPENSTACK_BUILD_KEYWORD)
    (hT : env.afterStatus (pyOr args.tester_hostname "pulp-tester")
      ≠ OPENSTACK_BUILD_KEYWORD) :
    ∃ rest, (run_tests args env).1
      = Event.createRequest (pyOr args.server_hostname "pulp-server")
        :: (List.replicate (env.buildPolls (pyOr args.server_hostname "pulp-server"))
            (Event.statusPoll (pyOr args.server_hostname "pulp-server"))
        ++ Event.createRequest (pyOr args.consumer_hostname "pulp-consumer")
        :: (List.replicate (env.buildPolls (pyOr args.consumer_hostname "pulp-consumer"))
            (Event.statusPoll (pyOr args.consumer_hostname "pulp-consumer"))
        ++ Event.createRequest (pyOr args.tester_hostname "pulp-tester")
        :: (List.replicate (env.buildPolls (pyOr args.tester_hostname "pulp-tester"))
            (Event.statusPoll (pyOr args.tester_hostname "pulp-tester"))
        ++ rest))) := by
  obtain ⟨rest, hshape⟩ := run_tests_trace_shape args env h1 h2 h3 h4
  refine ⟨rest, ?_⟩
  rw [hshape, create_instance_events_eq env _ hS, create_instance_events_eq env _ hC,
    create_instance_events_eq env _ hT]
  simp [List.append_assoc]

/-- Witness for claim C3 (amended) at the default arguments in the benign
environment. -/
theorem claim_C3_sequential_build_witness :
    ∃ rest, (run_tests argsDefault envBenign).1
      = Event.createRequest (pyOr argsDefault.server_hostname "pulp-server")
        :: (List.replicate (envBenign.buildPolls (pyOr argsDefault.server_hostname "pulp-server"))
            (Event.statusPoll (pyOr argsDefault.server_hostname "pulp-server"))
        ++ Event.createRequest (pyOr argsDefault.consumer_hostname "pulp-consumer")
        :: (List.replicate (envBenign.buildPolls (pyOr argsDefault.consumer_hostname "pulp-consumer"))
            (Event.statusPoll (pyOr argsDefault.consumer_hostname "pulp-consumer"))
        ++ Event.createRequest (pyOr argsDefault.tester_hostname "pulp-tester")
        :: (List.replicate (envBenign.buildPolls (pyOr argsDefault.tester_hostname "pulp-tester"))
            (Event.statusPoll (pyOr argsDefault.tester_hostname "pulp-tester"))
        ++ rest))) :=
  claim_C3_sequential_build argsDefault envBenign rfl rfl rfl rfl
    (by decide) (by decide) (by decide)

/-- Claim C4: `tear_down` issues exactly one delete call per element of its
server list (for any name, the delete calls for that name match the list's
occurrences of it); and a run that reaches the test phase invokes `tear_down`
exactly once, passing the three created instances, so each of server, tester
and consumer is deleted exactly once. -/
theorem claim_C4_delete_per_node :
    (∀ (servers : List Instance) (n : String),
      ((tear_down servers).filter (fun e => e == Event.deleteCall n)).length
        = (servers.filter (fun s => s.name == n)).length)
    ∧ (∀ (args : Args) (env : Env),
      env.key_file_isfile = true → env.consumer_puppet_isfile = true →
      env.server_puppet_isfile = true → env.distribution_found = true →
      env.serverConfigFails = false → env.consumerConfigFails = false →
      env.testerConfigFails = false → args.setup_only = false →
      tearDownCallsOf (run_tests args env).1
        = [Event.tearDownCall [pyOr args.server_hostname "pulp-server",
            pyOr args.tester_hostname "pulp-tester",
            pyOr args.consumer_hostname "pulp-consumer"]]
      ∧ deletesOf (run_tests args env).1
        = [Event.deleteCall (pyOr args.server_hostname "pulp-server"),
           Event.deleteCall (pyOr args.tester_hostname "pulp-tester"),
           Event.deleteCall (pyOr args.consumer_hostname "pulp-consumer")]) := by
  constructor
  · intro servers n
    induction servers with
    | nil => rfl
    | cons s rest ih =>
      by_cases hn : s.name = n
      · simp [tear_down, List.filter_cons, hn] at ih ⊢
        exact ih
      · simp [tear_down, List.filter_cons, hn] at ih ⊢
        exact ih
  · intro args env h1 h2 h3 h4 h5 h6 h7 h8
    constructor
    · rw [tearDownCallsOf_run_tests]
      simp [h1, h2, h3, h4, h5, h6, h7, h8]
    · rw [deletesOf_run_tests]
      simp [h1, h2, h3, h4, h5, h6, h7, h8]

/-- Witness for claim C4: the singleton teardown list, and the benign run at
default arguments. -/
theorem claim_C4_delete_per_node_witness :
    ((tear_down [⟨"pulp-server", "ACTIVE"⟩]).filter
        (fun e => e == Event.deleteCall "pulp-server")).length
      = ([(⟨"pulp-server", "ACTIVE"⟩ : Instance)].filter
          (fun s => s.name == "pulp-server")).length
    ∧ deletesOf (run_tests argsDefault envBenign).1
        = [Event.deleteCall (pyOr argsDefault.server_hostname "pulp-server"),
           Event.deleteCall (pyOr argsDefault.tester_hostname "pulp-tester"),
           Event.deleteCall (pyOr argsDefault.consumer_hostname "pulp-consumer")] :=
  ⟨claim_C4_delete_per_node.1 [⟨"pulp-server", "ACTIVE"⟩] "pulp-server",
   (claim_C4_delete_per_node.2 argsDefault envBenign rfl rfl rfl rfl rfl rfl rfl rfl).2⟩

/-- Claim C5: configuration is a root-first walk. The configuration calls of
any run are a prefix of server, consumer, tester in that order — the
consumer's configuration is never invoked before the server's, nor the
tester's before the consumer's — and a child configuration event can only
appear when its parent's configuration did not fail. -/
theorem claim_C5_configuration_order :
    (∀ (args : Args) (env : Env),
      configsOf (run_tests args env).1 = []
      ∨ configsOf (run_tests args env).1
          = [Event.configureServer (pyOr args.server_hostname "pulp-server")]
      ∨ configsOf (run_tests args env).1
          = [Event.configureServer (pyOr args.server_hostname "pulp-server"),
             Event.configureConsumer (pyOr args.consumer_hostname "pulp-consumer")]
      ∨ configsOf (run_tests args env).1
          = [Event.configureServer (pyOr args.server_hostname "pulp-server"),
             Event.configureConsumer (pyOr args.consumer_hostname "pulp-consumer"),
             Event.configureTester (pyOr args.tester_hostname "pulp-tester")])
    ∧ (∀ (args : Args) (env : Env),
      Event.configureConsumer (pyOr args.consumer_hostname "pulp-consumer")
          ∈ (run_tests args env).1 → env.serverConfigFails = false)
    ∧ (∀ (args : Args) (env : Env),
      Event.configureTester (pyOr args.tester_hostname "pulp-tester")
          ∈ (run_tests args env).1 →
        env.serverConfigFails = false ∧ env.consumerConfigFails = false) := by
  refine ⟨?_, ?_, ?_⟩
  · intro args env
    rw [configsOf_run_tests]
    split_ifs <;> simp
  · intro args env hmem
    have hmem2 : Event.configureConsumer (pyOr args.consumer_hostname "pulp-consumer")
        ∈ configsOf (run_tests args env).1 :=
      List.mem_filter.mpr ⟨hmem, rfl⟩
    rw [configsOf_run_tests] at hmem2
    cases hsf : env.serverConfigFails with
    | false => rfl
    | true =>
      exfalso
      rw [hsf] at hmem2
      split at hmem2 <;> simp_all
  · intro args env hmem
    have hmem2 : Event.configureTester (pyOr args.tester_hostname "pulp-tester")
        ∈ configsOf (run_tests args env).1 :=
      List.mem_filter.mpr ⟨hmem, rfl⟩
    rw [configsOf_run_tests] at hmem2
    constructor
    · cases hsf : env.serverConfigFails with
      | false => rfl
      | true =>
        exfalso
        rw [hsf] at hmem2
        split at hmem2 <;> simp_all
    · cases hcf : env.consumerConfigFails with
      | false => rfl
      | true =>
        exfalso
        rw [hcf] at hmem2
        split at hmem2
        · split at hmem2 <;> simp_all
        · simp_all

/-- Witness for claim C5: in the benign run at default arguments, the
consumer and tester configuration events occur, so the theorem yields that
neither parent configuration failed. -/
theorem claim_C5_configuration_order_witness :
    envBenign.serverConfigFails = false ∧ envBenign.consumerConfigFails = false :=
  ⟨claim_C5_configuration_order.2.1 argsDefault envBenign (by decide),
   (claim_C5_configuration_order.2.2 argsDefault envBenign (by decide)).2⟩

end PulpDeploy
